import Mathlib

/-!
Shallow embedding of the wallet-connection and transaction-signing bridge
of the X10V Telegram web app (webapp/src/App.jsx, webapp/src/algorand.js,
and the duplicated flow variants), together with proofs about the
properties the specification claims of it.

Network-bound collaborators (the algod client, the wallet extension, the
Telegram host channel) are modelled as explicit oracle inputs: each
asynchronous call site takes the outcome of that call as a parameter, with
`Except`/`Option` standing for thrown exceptions and null values.  All
React component state that the flows read or write is threaded explicitly.
-/

namespace X10V

/-! ## AddressValidator

`isValidAlgoAddress` (webapp/src/App.jsx lines 47-50, identically
`isValidAlgorandAddress` in the flow variants):

```js
function isValidAlgoAddress(addr) {
  if (!addr || addr.length !== 58) return false
  try { algosdk.decodeAddress(addr); return true } catch { return false }
}
```

`algosdk.decodeAddress` is an external library collaborator (base32 decode
plus checksum verification); it is modelled as an explicit capability
`decode : String → Option Unit`, where `none` stands for a thrown decoding
exception of any kind.  The `try`/`catch` maps to `Option.isSome`. -/

/-- JavaScript `String.prototype.trim()`: strip whitespace from both ends.
Defined over the character list so that it evaluates by kernel
reduction. -/
def jsTrim (s : String) : String :=
  String.mk (((s.data.dropWhile Char.isWhitespace).reverse.dropWhile Char.isWhitespace).reverse)

def isValidAlgoAddress (decode : String → Option Unit) (addr : String) : Bool :=
  if addr.isEmpty then false
  else if addr.length ≠ 58 then false
  else (decode addr).isSome

/-! ## LedgerGateway pieces

`getAccountBalance` (webapp/src/algorand.js lines 17-25):

```js
export async function getAccountBalance(address) {
  try {
    const info = await algodClient.accountInformation(address).do()
    return info['amount'] / 1e6
  } catch (err) { console.error(...); return null }
}
```

The account lookup outcome is the oracle `lookup : Option Nat`: `some amt`
is a response whose `amount` field is `amt` microAlgos, `none` is a thrown
transport error.  JavaScript numbers are modelled as exact rationals. -/

def getAccountBalance (lookup : Option Nat) : Option ℚ :=
  match lookup with
  | some amt => some ((amt : ℚ) / 1000000)
  | none => none

/-! ## BridgeEnvelope and the manual connect flow -/

inductive EnvelopeAction
  | walletConnected
  | onchainActionSigned
  | txResult
deriving DecidableEq

/-- The `wallet_connected` payload handed to `tg.sendData`.  The balance
field is `Option ℚ` because one variant forwards a JavaScript `null`
(modelled `none`) verbatim. -/
structure Envelope where
  action : EnvelopeAction
  address : String
  balance : Option ℚ
deriving DecidableEq

inductive ConnStatus
  | idle
  | checking
  | success
  | error
deriving DecidableEq

/-- Result of one run of the manual verify-and-connect handler. -/
structure ConnectOutcome where
  lookupPerformed : Bool
  status : ConnStatus
  balance : Option ℚ
  envelope : Option Envelope
  sentFlag : Bool
deriving DecidableEq

/-- `ConnectMode.verifyAndConnect` (webapp/src/App.jsx lines 107-148):
validates the trimmed candidate, bails out with an error before any
network call when validation or client availability fails, otherwise
performs the `accountInformation` lookup (outcome `lookup`); on success it
computes `bal = (info.amount || 0) / 1e6`, stores it, and — when the
Telegram SDK is present and the one-shot `sentRef` is still clear — sets
the flag and schedules `tg.sendData` of the `wallet_connected` envelope
followed by `tg.close`.  A thrown lookup maps to the error status. -/
def verifyAndConnect (decode : String → Option Unit) (candidate : String)
    (clientOk tgPresent sentAlready : Bool) (lookup : Option Nat) : ConnectOutcome :=
  let trimmed := jsTrim candidate
  if ¬ isValidAlgoAddress decode trimmed then
    { lookupPerformed := false, status := .error, balance := none
      envelope := none, sentFlag := sentAlready }
  else if ¬ clientOk then
    { lookupPerformed := false, status := .error, balance := none
      envelope := none, sentFlag := sentAlready }
  else
    match lookup with
    | none =>
      { lookupPerformed := true, status := .error, balance := none
        envelope := none, sentFlag := sentAlready }
    | some amt =>
      let bal : ℚ := (amt : ℚ) / 1000000
      let send := tgPresent && !sentAlready
      { lookupPerformed := true, status := .success, balance := some bal
        envelope := if send then
            some { action := .walletConnected, address := trimmed, balance := some bal }
          else none
        sentFlag := sentAlready || tgPresent }

/-- `ConnectModeUIInner.handleManualSubmit` (flow variant, lines 295-306)
and the identical `ConnectMode.handleManualSubmit` of the other variant:
same validation gate, but delivery is unconditional on success — this
handler neither consults nor sets the one-shot `dataSentRef`. -/
def handleManualSubmit (decode : String → Option Unit) (candidate : String)
    (tgPresent : Bool) (lookup : Option Nat) : ConnectOutcome :=
  let trimmed := jsTrim candidate
  if ¬ isValidAlgoAddress decode trimmed then
    { lookupPerformed := false, status := .error, balance := none
      envelope := none, sentFlag := false }
  else
    match lookup with
    | none =>
      { lookupPerformed := true, status := .error, balance := none
        envelope := none, sentFlag := false }
    | some amt =>
      let bal : ℚ := (amt : ℚ) / 1000000
      { lookupPerformed := true, status := .success, balance := some bal
        envelope := if tgPresent then
            some { action := .walletConnected, address := trimmed, balance := some bal }
          else none
        sentFlag := false }

/-! ## The extension-based ConnectMode as an event machine

`ConnectMode` of the use-wallet flow variant (part_003 lines 25-134, the
structurally identical `ConnectModeUIInner` in part_002 lines 260-311)
reacts to three kinds of events inside one session (tg present):

* `extActivated` — the `useEffect` on `activeAccount` fires with an
  address; `sendWalletData` consults and sets the one-shot `dataSentRef`,
  sets the success state and schedules exactly one `tg.sendData` +
  `tg.close` (delivery happens on both the balance-ok and balance-error
  branches, so the oracle is irrelevant to the delivery count).
* `manualClick valid` — the user presses the manual connect button; the
  handler returns early on invalid input, otherwise sets `checking` and
  starts an `accountInformation` lookup.  The button is rendered only
  while `success` is false and is disabled while `checking`.
* `manualResolved ok` — the in-flight manual lookup resolves.  On success
  the handler sets the success state and schedules `tg.sendData` +
  `tg.close` without consulting or setting `dataSentRef`; on failure it
  clears `checking`.

`deliveries` counts `tg.sendData` invocations. -/

structure ConnectSession where
  dataSent : Bool
  success : Bool
  checking : Bool
  pendingLookup : Bool
  deliveries : Nat
deriving DecidableEq

inductive ConnectEvent
  | extActivated
  | manualClick (valid : Bool)
  | manualResolved (ok : Bool)
deriving DecidableEq

def connectStep (s : ConnectSession) (e : ConnectEvent) : ConnectSession :=
  match e with
  | .extActivated =>
    if s.dataSent then s
    else { s with dataSent := true, success := true, deliveries := s.deliveries + 1 }
  | .manualClick valid =>
    if s.success || s.checking || !valid then s
    else { s with checking := true, pendingLookup := true }
  | .manualResolved ok =>
    if !s.pendingLookup then s
    else if ok then
      { s with success := true, pendingLookup := false, deliveries := s.deliveries + 1 }
    else { s with checking := false, pendingLookup := false }

def initSession : ConnectSession :=
  { dataSent := false, success := false, checking := false
    pendingLookup := false, deliveries := 0 }

def runConnect (tr : List ConnectEvent) : ConnectSession :=
  tr.foldl connectStep initSession

/-! ## Extension-path delivery with balance fetch -/

/-- Outcome of one delivery attempt to the host channel. -/
structure DeliverOutcome where
  delivered : Bool
  envelope : Option Envelope
deriving DecidableEq

/-- `ConnectMode.sendWalletData` (part_003 lines 49-81): guarded by the
one-shot `dataSentRef`; fetches the balance with `getAccountBalance` and
— when the Telegram SDK is present — schedules `tg.sendData` of the
`wallet_connected` envelope with `balance: bal` verbatim.  The `catch`
branch that would send `balance: 0` is unreachable for fetch failures,
because `getAccountBalance` catches internally and returns `null`
(`none`) instead of throwing. -/
def sendWalletData (tgPresent dataSentAlready : Bool) (addr : String)
    (lookup : Option Nat) : DeliverOutcome :=
  if dataSentAlready then { delivered := false, envelope := none }
  else if tgPresent then
    { delivered := true
      envelope := some { action := .walletConnected, address := addr
                         balance := getAccountBalance lookup } }
  else { delivered := false, envelope := none }

/-- The `activeAccount` effect of `ConnectModeUIInner` (part_002 lines
274-288): guarded by `dataSentRef`; fetches the balance and sends the
envelope with `balance: bal || 0`, so a `null` balance is coerced to
`0`. -/
def extensionConnectedEffect (tgPresent dataSentAlready : Bool) (addr : String)
    (lookup : Option Nat) : DeliverOutcome :=
  if dataSentAlready then { delivered := false, envelope := none }
  else if tgPresent then
    { delivered := true
      envelope := some { action := .walletConnected, address := addr
                         balance := some ((getAccountBalance lookup).getD 0) } }
  else { delivered := false, envelope := none }

/-- A 58-character candidate used as concrete input in witnesses. -/
def addr58 : String := "AAAAAAAAAAAAAAAAAAAAAAAAAAAAAAAAAAAAAAAAAAAAAAAAAAAAAAAAAA"

/-! ## SigningSession stages -/

/-- The stages of one signing attempt, in the order the spec names them. -/
inductive Stage
  | built
  | awaitingSignature
  | broadcasting
  | awaitingConfirmation
  | confirmed
deriving DecidableEq

def canonicalStages : List Stage :=
  [.built, .awaitingSignature, .broadcasting, .awaitingConfirmation, .confirmed]

/-- Cause attached to a `sendRawTransaction` rejection, distinguishing the
parameter-staleness sub-case the spec singles out. -/
inductive SubmitCause
  | staleParams
  | otherCause
deriving DecidableEq

structure SubmitErr where
  cause : SubmitCause
  message : String
deriving DecidableEq

/-- `Math.floor(amountAlgo * 1e6)` — the microAlgo amount computed by
`buildPaymentTxn` (webapp/src/algorand.js line 29) and by
`SignSwapMode.handleSign` (webapp/src/App.jsx line 365). -/
def buildAmountMicro (amountAlgo : ℚ) : ℤ :=
  ⌊amountAlgo * 1000000⌋

/-! ## The send-payment flow (`TransactModeUI.handleSendAlgo`)

part_002 lines 532-568 (identically part_003 `TransactMode.handleSendAlgo`
lines 334-370), with `buildPaymentTxn` and `waitForConfirmation` from
webapp/src/algorand.js.  Each awaited collaborator call is an oracle
field; `Except.error m` is a thrown exception carrying message `m`. -/

structure TransactOracle where
  /-- `parseFloat(sendAmount)`: `none` is `NaN`. -/
  amountInput : Option ℚ
  /-- `algodClient.getTransactionParams().do()` inside `buildPaymentTxn`. -/
  paramsResult : Except String Unit
  /-- `signTransactions([encodedTxn])`: throw, or an array of signed blobs
  in which entries may be null. -/
  signResult : Except String (List (Option (List Nat)))
  /-- `algodClient.sendRawTransaction(...).do()`: throw (`SubmitErr`) or
  the returned `txId`. -/
  submitResult : Except SubmitErr String
  /-- `waitForConfirmation(txId)`. -/
  confirmResult : Except String Unit

structure TransactRun where
  /-- Stage entries, in order: `built` when `buildPaymentTxn` returns,
  `awaitingSignature` when the signature is requested, `broadcasting` when
  raw submission is requested, `awaitingConfirmation` when confirmation
  polling starts, `confirmed` on confirmation success. -/
  stages : List Stage
  paramsCalls : Nat
  signCalls : Nat
  submitCalls : Nat
  confirmCalls : Nat
  /-- The final `txStatus` UI state. -/
  txStatus : Option String
  txId : Option String
  /-- The amount placed in the unsigned payment, when one was built. -/
  amountMicro : Option ℤ
  /-- Whether the success envelope path (Telegram MainButton →
  `tg.sendData`) was armed. -/
  hostNotified : Bool
deriving DecidableEq

def invalidAmountRun : TransactRun :=
  { stages := [], paramsCalls := 0, signCalls := 0, submitCalls := 0
    confirmCalls := 0, txStatus := some "Invalid amount", txId := none
    amountMicro := none, hostNotified := false }

/-- One invocation of `handleSendAlgo`: validate the parsed amount, then
`buildPaymentTxn` (fresh `getTransactionParams`, `Math.floor(amount*1e6)`),
encode, `signTransactions`, `sendRawTransaction`, `waitForConfirmation`,
then the success UI and host notification.  The single `catch` turns any
thrown step into the terminal status `❌ Failed: <message>` — there is no
retry of any kind. -/
def runTransact (o : TransactOracle) : TransactRun :=
  match o.amountInput with
  | none => invalidAmountRun
  | some amt =>
    if amt ≤ 0 then invalidAmountRun
    else
      match o.paramsResult with
      | .error m =>
        { stages := [], paramsCalls := 1, signCalls := 0, submitCalls := 0
          confirmCalls := 0, txStatus := some ("❌ Failed: " ++ m), txId := none
          amountMicro := none, hostNotified := false }
      | .ok _ =>
        let micro := buildAmountMicro amt
        match o.signResult with
        | .error m =>
          { stages := [.built, .awaitingSignature], paramsCalls := 1, signCalls := 1
            submitCalls := 0, confirmCalls := 0, txStatus := some ("❌ Failed: " ++ m)
            txId := none, amountMicro := some micro, hostNotified := false }
        | .ok _ =>
          match o.submitResult with
          | .error e =>
            { stages := [.built, .awaitingSignature, .broadcasting], paramsCalls := 1
              signCalls := 1, submitCalls := 1, confirmCalls := 0
              txStatus := some ("❌ Failed: " ++ e.message), txId := none
              amountMicro := some micro, hostNotified := false }
          | .ok tid =>
            match o.confirmResult with
            | .error m =>
              { stages := [.built, .awaitingSignature, .broadcasting, .awaitingConfirmation]
                paramsCalls := 1, signCalls := 1, submitCalls := 1, confirmCalls := 1
                txStatus := some ("❌ Failed: " ++ m), txId := some tid
                amountMicro := some micro, hostNotified := false }
            | .ok _ =>
              { stages := canonicalStages, paramsCalls := 1, signCalls := 1
                submitCalls := 1, confirmCalls := 1
                txStatus := some "✅ Transaction confirmed!", txId := some tid
                amountMicro := some micro, hostNotified := true }

/-! ## The pending-transaction signing flow (`SignSwapMode.handleSign`)

webapp/src/App.jsx lines 343-448: sender check, fresh
`getTransactionParams`, `makePaymentTxnWithSuggestedParamsFromObject` with
`Math.floor(txData.amount_algo * 1e6)`, `window.algorand` presence check,
`enable`, `signTxns`, explicit null-result rejection check, raw
submission, confirmation, then the guarded host notification. -/

inductive SwapStatus
  | ready
  | success
  | error
deriving DecidableEq

structure SignSwapOracle where
  /-- `txData` was fetched (status `ready`). -/
  txDataLoaded : Bool
  /-- `algodClient` was constructed. -/
  clientOk : Bool
  /-- `txData.sender`. -/
  sender : Option String
  /-- `txData.amount_algo`. -/
  amountAlgo : ℚ
  paramsResult : Except String Unit
  /-- `window.algorand` is injected. -/
  walletInjected : Bool
  /-- `window.algorand.enable({genesisID})`. -/
  enableResult : Except String Unit
  /-- `window.algorand.signTxns([{txn}])`: throw, or an array whose
  entries may be null (null/absent means rejection). -/
  signTxnsResult : Except String (List (Option (List Nat)))
  submitResult : Except SubmitErr String
  confirmResult : Except String Unit

structure SignSwapRun where
  stages : List Stage
  paramsCalls : Nat
  enableCalls : Nat
  signCalls : Nat
  submitCalls : Nat
  confirmCalls : Nat
  status : SwapStatus
  errorMsg : Option String
  txId : Option String
  amountMicro : Option ℤ
  hostNotified : Bool
deriving DecidableEq

/-- `!result || !result[0]` — the explicit rejection check on the
`signTxns` result (App.jsx line 398). -/
def headRejected (l : List (Option (List Nat))) : Bool :=
  match l.head? with
  | some (some _) => false
  | _ => true

def signSwapStop (st : List Stage) (p en sg : Nat) (msg : String) : SignSwapRun :=
  { stages := st, paramsCalls := p, enableCalls := en, signCalls := sg
    submitCalls := 0, confirmCalls := 0, status := .error, errorMsg := some msg
    txId := none, amountMicro := none, hostNotified := false }

def runSignSwap (o : SignSwapOracle) : SignSwapRun :=
  if ¬ o.txDataLoaded ∨ ¬ o.clientOk then
    { stages := [], paramsCalls := 0, enableCalls := 0, signCalls := 0
      submitCalls := 0, confirmCalls := 0, status := .ready, errorMsg := none
      txId := none, amountMicro := none, hostNotified := false }
  else
    match o.sender with
    | none =>
      signSwapStop [] 0 0 0
        "No sender address in transaction. Please connect your wallet first via /connect_wallet."
    | some _ =>
      match o.paramsResult with
      | .error m => signSwapStop [] 1 0 0 ("Transaction failed: " ++ m)
      | .ok _ =>
        let micro := buildAmountMicro o.amountAlgo
        if ¬ o.walletInjected then
          { signSwapStop [.built] 1 0 0
              "Lute Wallet extension not found. Please install it from lute.app" with
            amountMicro := some micro }
        else
          match o.enableResult with
          | .error _ =>
            { signSwapStop [.built] 1 1 0
                "Please approve the connection in your Lute wallet popup." with
              amountMicro := some micro }
          | .ok _ =>
            match o.signTxnsResult with
            | .error m =>
              { signSwapStop [.built, .awaitingSignature] 1 1 1
                  ("Transaction failed: " ++ m) with
                amountMicro := some micro }
            | .ok l =>
              if headRejected l then
                { signSwapStop [.built, .awaitingSignature] 1 1 1
                    "Wallet rejected the transaction." with
                  amountMicro := some micro }
              else
                match o.submitResult with
                | .error e =>
                  { stages := [.built, .awaitingSignature, .broadcasting]
                    paramsCalls := 1, enableCalls := 1, signCalls := 1
                    submitCalls := 1, confirmCalls := 0, status := .error
                    errorMsg := some ("Transaction failed: " ++ e.message)
                    txId := none, amountMicro := some micro, hostNotified := false }
                | .ok tid =>
                  match o.confirmResult with
                  | .error m =>
                    { stages := [.built, .awaitingSignature, .broadcasting,
                        .awaitingConfirmation]
                      paramsCalls := 1, enableCalls := 1, signCalls := 1
                      submitCalls := 1, confirmCalls := 1, status := .error
                      errorMsg := some ("Transaction failed: " ++ m)
                      txId := none, amountMicro := some micro, hostNotified := false }
                  | .ok _ =>
                    { stages := canonicalStages, paramsCalls := 1, enableCalls := 1
                      signCalls := 1, submitCalls := 1, confirmCalls := 1
                      status := .success, errorMsg := none, txId := some tid
                      amountMicro := some micro, hostNotified := true }

/-! ## ConnectionNegotiator state machine

The connect-mode component tree of part_002: `WalletConnectMode` loads the
wallet library (lines 174-206), `WalletConnectInner` constructs the
`WalletManager` (lines 214-228), `ConnectModeUIInner` shows the extension
connect button with a manual-paste panel in the same view (lines 260-406);
`ManualConnectFallback` is the manual-paste-only strategy.  Every failure
path — library import rejection, `WalletManager` constructor throw,
`wallet.connect()` rejection (also part_003 `handleConnect` lines 83-91),
and a render error caught by the `ErrorBoundary` whose fallback is
`ManualConnectFallback` — keeps the session alive with the manual-paste
strategy reachable. -/

inductive NegState
  | loadingLib
  | initializingManager
  | extensionUI (err : Option String)
  | manualFallback
  | connected (addr : String)
deriving DecidableEq

inductive NegEvent
  | libLoaded
  | libLoadFailed
  | managerReady
  | managerInitFailed
  | connectResolved (addr : String)
  | connectRejected (msg : String)
  | renderError
deriving DecidableEq

def negotiatorStep : NegState → NegEvent → NegState
  | .loadingLib, .libLoaded => .initializingManager
  | .loadingLib, .libLoadFailed => .manualFallback
  | .initializingManager, .managerReady => .extensionUI none
  | .initializingManager, .managerInitFailed => .manualFallback
  | .extensionUI _, .connectResolved addr => .connected addr
  | .extensionUI _, .connectRejected msg =>
      .extensionUI (some ("Connection failed: " ++ msg))
  | .extensionUI _, .renderError => .manualFallback
  | s, _ => s

/-- Which events can occur in which state (the callback registered in that
state). -/
def eventEnabled : NegState → NegEvent → Bool
  | .loadingLib, .libLoaded => true
  | .loadingLib, .libLoadFailed => true
  | .initializingManager, .managerReady => true
  | .initializingManager, .managerInitFailed => true
  | .extensionUI _, .connectResolved _ => true
  | .extensionUI _, .connectRejected _ => true
  | .extensionUI _, .renderError => true
  | _, _ => false

/-- States in which the manual-paste strategy is reachable: the extension
UI (manual panel in the same view) and the dedicated fallback. -/
def manualEntryAvailable : NegState → Bool
  | .extensionUI _ => true
  | .manualFallback => true
  | _ => false

def isFailureEvent : NegEvent → Bool
  | .libLoadFailed => true
  | .managerInitFailed => true
  | .connectRejected _ => true
  | .renderError => true
  | _ => false

/-! ## Concrete oracles used in counterexamples and witnesses -/

/-- A fully successful payment attempt of 0.5 ALGO. -/
def okTransactOracle : TransactOracle :=
  { amountInput := some (1 / 2), paramsResult := .ok ()
    signResult := .ok [some [1, 2]], submitResult := .ok "TXID123"
    confirmResult := .ok () }

/-- A payment attempt whose raw submission is rejected with a
parameter-staleness cause. -/
def staleTransactOracle : TransactOracle :=
  { amountInput := some (1 / 2), paramsResult := .ok ()
    signResult := .ok [some [1, 2]]
    submitResult := .error { cause := .staleParams
                             message := "TransactionPool.Remember: txn dead" }
    confirmResult := .ok () }

/-- A payment attempt requesting 0.0000001 ALGO — one tenth of the
smallest ledger unit. -/
def tinyAmountOracle : TransactOracle :=
  { amountInput := some (1 / 10000000), paramsResult := .ok ()
    signResult := .ok [some [1, 2]], submitResult := .ok "TXID123"
    confirmResult := .ok () }

/-- A signing attempt in which the wallet returns `[null]` — an explicit
rejection. -/
def rejectedSignSwapOracle : SignSwapOracle :=
  { txDataLoaded := true, clientOk := true, sender := some addr58
    amountAlgo := 1 / 2, paramsResult := .ok (), walletInjected := true
    enableResult := .ok (), signTxnsResult := .ok [none]
    submitResult := .ok "TXID123", confirmResult := .ok () }

/-- A pending-transaction signing attempt whose raw submission is
rejected with a parameter-staleness cause. -/
def staleSignSwapOracle : SignSwapOracle :=
  { txDataLoaded := true, clientOk := true, sender := some addr58
    amountAlgo := 1 / 2, paramsResult := .ok (), walletInjected := true
    enableResult := .ok (), signTxnsResult := .ok [some [1, 2]]
    submitResult := .error { cause := .staleParams
                             message := "TransactionPool.Remember: txn dead" }
    confirmResult := .ok () }

/-- A fully successful pending-transaction signing attempt. -/
def okSignSwapOracle : SignSwapOracle :=
  { txDataLoaded := true, clientOk := true, sender := some addr58
    amountAlgo := 1 / 2, paramsResult := .ok (), walletInjected := true
    enableResult := .ok (), signTxnsResult := .ok [some [1, 2]]
    submitResult := .ok "TXID123", confirmResult := .ok () }

end X10V

namespace X10V

/-! ## Claim theorems (first group) -/

/-- C2: `isValidAlgoAddress` returns `false` for every string whose length
is not 58, and treats any checksum-decoding exception (`decode _ = none`)
as `false` instead of propagating it.  Purity is inherent to the
embedding: the function's type `(String → Option Unit) → String → Bool`
admits no side effects and gives it no access to any network oracle. -/
theorem C2_validate_length_and_exception (decode : String → Option Unit) (addr : String) :
    (addr.length ≠ 58 → isValidAlgoAddress decode addr = false) ∧
    (decode addr = none → isValidAlgoAddress decode addr = false) := by
  constructor
  · intro hlen
    unfold isValidAlgoAddress
    by_cases he : addr.isEmpty
    · simp [he]
    · simp [he, hlen]
  · intro hdec
    unfold isValidAlgoAddress
    by_cases he : addr.isEmpty
    · simp [he]
    · by_cases hlen : addr.length = 58
      · simp [he, hlen, hdec]
      · simp [he, hlen]

/-- Witness for C2 at the concrete input `"A"` with an always-failing
decoder. -/
theorem C2_validate_length_and_exception_witness :
    ("A".length ≠ 58 ∧ isValidAlgoAddress (fun _ => none) "A" = false) ∧
    ((fun (_ : String) => (none : Option Unit)) "A" = none ∧
      isValidAlgoAddress (fun _ => none) "A" = false) := by
  refine ⟨⟨by decide, ?_⟩, ⟨rfl, ?_⟩⟩
  · exact (C2_validate_length_and_exception (fun _ => none) "A").1 (by decide)
  · exact (C2_validate_length_and_exception (fun _ => none) "A").2 rfl

/-- C3: in both manual connect handlers, a candidate that fails
`isValidAlgoAddress` never reaches the network (`lookupPerformed = false`),
is never stored as connected (`status = error`, no balance), and produces
no `wallet_connected` envelope — for every possible network oracle, client
availability, host presence and prior-sent flag. -/
theorem C3_invalid_address_no_network (decode : String → Option Unit)
    (candidate : String) (clientOk tgPresent sentAlready : Bool) (lookup : Option Nat)
    (hinvalid : isValidAlgoAddress decode (jsTrim candidate) = false) :
    (verifyAndConnect decode candidate clientOk tgPresent sentAlready lookup).lookupPerformed = false ∧
    (verifyAndConnect decode candidate clientOk tgPresent sentAlready lookup).status = .error ∧
    (verifyAndConnect decode candidate clientOk tgPresent sentAlready lookup).envelope = none ∧
    (handleManualSubmit decode candidate tgPresent lookup).lookupPerformed = false ∧
    (handleManualSubmit decode candidate tgPresent lookup).status = .error ∧
    (handleManualSubmit decode candidate tgPresent lookup).envelope = none := by
  unfold verifyAndConnect handleManualSubmit
  simp [hinvalid]

/-- Witness for C3: the spec scenario, candidate `"A"` (length 3 after
trimming), with a decoder that accepts everything — validation still
fails on length alone and no lookup is attempted. -/
theorem C3_invalid_address_no_network_witness :
    isValidAlgoAddress (fun _ => some ()) (jsTrim "A") = false ∧
    (verifyAndConnect (fun _ => some ()) "A" true true false (some 5)).lookupPerformed = false ∧
    (handleManualSubmit (fun _ => some ()) "A" true (some 5)).lookupPerformed = false := by
  refine ⟨by decide, ?_, ?_⟩
  · exact (C3_invalid_address_no_network (fun _ => some ()) "A" true true false (some 5)
      (by decide)).1
  · exact (C3_invalid_address_no_network (fun _ => some ()) "A" true true false (some 5)
      (by decide)).2.2.2.1

/-- C1 counterexample: in the use-wallet ConnectMode, a manual
verification started before the extension callback resolves yields two
`tg.sendData` invocations in one session — the manual-submit handler
neither consults nor sets the one-shot `dataSentRef`.  Trace: the user
clicks the manual connect button with a valid address (lookup now in
flight), the extension connect resolves (first delivery), then the manual
lookup resolves successfully (second delivery). -/
theorem C1_delivery_twice_counterexample :
    (runConnect [.manualClick true, .extActivated, .manualResolved true]).deliveries = 2 ∧
    ¬ (runConnect [.manualClick true, .extActivated, .manualResolved true]).deliveries ≤ 1 := by
  decide

/-- Helper invariant for C1: along any trace without a successful manual
resolution, the delivery count stays below the one-shot bound tracked by
`dataSent`. -/
theorem connectStep_deliveries_bound (tr : List ConnectEvent) (s : ConnectSession)
    (h : ∀ e ∈ tr, e ≠ ConnectEvent.manualResolved true)
    (hs : s.deliveries ≤ if s.dataSent then 1 else 0) :
    (tr.foldl connectStep s).deliveries ≤ 1 := by
  induction tr generalizing s with
  | nil =>
    simp only [List.foldl_nil]
    split at hs <;> omega
  | cons e rest ih =>
    simp only [List.foldl_cons]
    have hrest : ∀ x ∈ rest, x ≠ ConnectEvent.manualResolved true :=
      fun x hx => h x (List.mem_cons_of_mem e hx)
    have he : e ≠ ConnectEvent.manualResolved true := h e (List.mem_cons_self e rest)
    refine ih (connectStep s e) hrest ?_
    cases e with
    | extActivated =>
      by_cases hdt : s.dataSent
      · simpa [connectStep, hdt] using hs
      · simp [connectStep, hdt] at hs ⊢
        omega
    | manualClick valid =>
      by_cases hg : (s.success || s.checking || !valid) = true
      · simpa [connectStep, hg] using hs
      · simp only [connectStep, hg, if_false]
        simpa using hs
    | manualResolved ok =>
      cases ok with
      | true => exact absurd rfl he
      | false =>
        by_cases hp : s.pendingLookup
        · simp only [connectStep, hp]
          simpa using hs
        · simpa [connectStep, hp] using hs

/-- C1 amended: deliveries driven only by the extension address-resolution
path (any number of duplicate callback firings, manual clicks, and failed
manual verifications) happen at most once per mounted session: the
one-shot `dataSentRef` suppresses re-delivery.  The guard does not extend
to successful manual verifications, and being a component ref it is tied
to the mounted instance, not to session identity. -/
theorem C1_extension_events_at_most_once (tr : List ConnectEvent)
    (h : ∀ e ∈ tr, e ≠ ConnectEvent.manualResolved true) :
    (runConnect tr).deliveries ≤ 1 :=
  connectStep_deliveries_bound tr initSession h (by decide)

/-- Witness for C1 amended: a duplicated extension callback delivers only
once. -/
theorem C1_extension_events_at_most_once_witness :
    (∀ e ∈ [ConnectEvent.extActivated, ConnectEvent.extActivated],
      e ≠ ConnectEvent.manualResolved true) ∧
    (runConnect [ConnectEvent.extActivated, ConnectEvent.extActivated]).deliveries ≤ 1 :=
  ⟨by decide, C1_extension_events_at_most_once _ (by decide)⟩

/-- C8 counterexample: a successfully verified account holding 1,500,000
microAlgos is stored and carried with balance `3/2` — the amount divided
by `10^6`, a non-integer rational strictly between `1` and `2` — not an
integer number of microAlgos. -/
theorem C8_balance_unit_counterexample :
    (verifyAndConnect (fun _ => some ()) addr58 true true false (some 1500000)).balance
      = some ((3 : ℚ) / 2) ∧
    (verifyAndConnect (fun _ => some ()) addr58 true true false (some 1500000)).envelope
      = some { action := .walletConnected, address := addr58, balance := some ((3 : ℚ) / 2) } ∧
    ((1 : ℚ) < (3 : ℚ) / 2 ∧ (3 : ℚ) / 2 < 2) ∧
    ((3 : ℚ) / 2) ≠ ((1500000 : ℕ) : ℚ) := by
  have hv : isValidAlgoAddress (fun _ => some ()) (jsTrim addr58) = true := by decide
  have ht : jsTrim addr58 = addr58 := by decide
  have hv2 : isValidAlgoAddress (fun _ => some ()) addr58 = true := ht ▸ hv
  refine ⟨?_, ?_, by norm_num, by norm_num⟩
  · simp [verifyAndConnect, ht, hv2]
    norm_num
  · simp [verifyAndConnect, ht, hv2]
    norm_num

/-- C8 amended: for every successfully verified address, the balance
stored and carried in the `wallet_connected` envelope is the account's
microAlgo amount divided by `10^6`, i.e. it is denominated in whole
Algos (possibly fractional); it is the integer `n` exactly when the
account holds `n * 10^6` microAlgos. -/
theorem C8_balance_in_algos (decode : String → Option Unit) (candidate : String)
    (amt : Nat) (hvalid : isValidAlgoAddress decode (jsTrim candidate) = true) :
    ∃ b : ℚ,
      (verifyAndConnect decode candidate true true false (some amt)).balance = some b ∧
      (verifyAndConnect decode candidate true true false (some amt)).envelope
        = some { action := .walletConnected, address := jsTrim candidate, balance := some b } ∧
      b * 1000000 = amt ∧
      (∀ n : Nat, amt = 1000000 * n → b = n) := by
  refine ⟨(amt : ℚ) / 1000000, ?_, ?_, ?_, ?_⟩
  · simp [verifyAndConnect, hvalid]
  · simp [verifyAndConnect, hvalid]
  · field_simp
  · intro n hn
    subst hn
    push_cast
    field_simp

/-- Witness for C8 amended at a 58-character address with an
always-accepting decoder and a 2,000,000-microAlgo account. -/
theorem C8_balance_in_algos_witness :
    isValidAlgoAddress (fun _ => some ()) (jsTrim addr58) = true ∧
    ∃ b : ℚ,
      (verifyAndConnect (fun _ => some ()) addr58 true true false (some 2000000)).balance
        = some b ∧
      (verifyAndConnect (fun _ => some ()) addr58 true true false (some 2000000)).envelope
        = some { action := .walletConnected, address := jsTrim addr58, balance := some b } ∧
      b * 1000000 = (2000000 : Nat) ∧
      (∀ n : Nat, (2000000 : Nat) = 1000000 * n → b = n) :=
  ⟨by decide, C8_balance_in_algos (fun _ => some ()) addr58 2000000 (by decide)⟩

/-- C10 counterexample: in the `sendWalletData` variant, a failed balance
fetch (`getAccountBalance` returns `null`) still results in delivery, but
the envelope carries `balance: null` verbatim, not `balance: 0`. -/
theorem C10_null_balance_counterexample :
    (sendWalletData true false "ADDR" none).delivered = true ∧
    (sendWalletData true false "ADDR" none).envelope
      = some { action := .walletConnected, address := "ADDR", balance := none } ∧
    (none : Option ℚ) ≠ some (0 : ℚ) := by
  decide

/-- C10 amended: both extension-connected delivery variants hand the
`wallet_connected` envelope to the host regardless of the balance-fetch
outcome — connection success does not depend on the balance lookup.  On a
failed fetch the part_002 variant coerces the `null` balance to `0`
(`bal || 0`), while the part_003 `sendWalletData` variant forwards the
`null` verbatim (its balance-`0` catch branch is unreachable because
`getAccountBalance` catches internally and returns `null`). -/
theorem C10_delivery_despite_fetch_failure (addr : String) (lookup : Option Nat) :
    (sendWalletData true false addr lookup).delivered = true ∧
    (extensionConnectedEffect true false addr lookup).delivered = true ∧
    (lookup = none →
      (extensionConnectedEffect true false addr lookup).envelope
        = some { action := .walletConnected, address := addr, balance := some 0 } ∧
      (sendWalletData true false addr lookup).envelope
        = some { action := .walletConnected, address := addr, balance := none }) := by
  refine ⟨by simp [sendWalletData], by simp [extensionConnectedEffect], ?_⟩
  intro hl
  subst hl
  exact ⟨by simp [extensionConnectedEffect, getAccountBalance],
    by simp [sendWalletData, getAccountBalance]⟩

/-- Witness for C10 amended at a concrete address with a failed lookup. -/
theorem C10_delivery_despite_fetch_failure_witness :
    (sendWalletData true false "ADDR" none).delivered = true ∧
    (extensionConnectedEffect true false "ADDR" none).envelope
      = some { action := .walletConnected, address := "ADDR", balance := some 0 } :=
  ⟨(C10_delivery_despite_fetch_failure "ADDR" none).1,
    ((C10_delivery_despite_fetch_failure "ADDR" none).2.2 rfl).1⟩

/-- Helper for C4: every run of `handleSendAlgo` enters stages in the
canonical order with none skipped, `confirmed` only at the end of the full
sequence, and a fresh parameter fetch behind every build. -/
theorem transact_run_ordered (o : TransactOracle) :
    (∃ k, (runTransact o).stages = canonicalStages.take k) ∧
    (Stage.confirmed ∈ (runTransact o).stages → (runTransact o).stages = canonicalStages) ∧
    (Stage.built ∈ (runTransact o).stages → (runTransact o).paramsCalls = 1) := by
  rcases o with ⟨amt, pr, sr, subr, cr⟩
  cases amt with
  | none =>
    refine ⟨⟨0, ?_⟩, ?_, ?_⟩ <;> simp [runTransact, invalidAmountRun, canonicalStages]
  | some a =>
    by_cases ha : a ≤ 0
    · refine ⟨⟨0, ?_⟩, ?_, ?_⟩ <;> simp [runTransact, invalidAmountRun, canonicalStages, ha]
    · cases pr with
      | error m => refine ⟨⟨0, ?_⟩, ?_, ?_⟩ <;> simp [runTransact, canonicalStages, ha]
      | ok u =>
        cases sr with
        | error m => refine ⟨⟨2, ?_⟩, ?_, ?_⟩ <;> simp [runTransact, canonicalStages, ha]
        | ok l =>
          cases subr with
          | error e => refine ⟨⟨3, ?_⟩, ?_, ?_⟩ <;> simp [runTransact, canonicalStages, ha]
          | ok tid =>
            cases cr with
            | error m =>
              refine ⟨⟨4, ?_⟩, ?_, ?_⟩ <;> simp [runTransact, canonicalStages, ha]
            | ok v => refine ⟨⟨5, ?_⟩, ?_, ?_⟩ <;> simp [runTransact, canonicalStages, ha]

/-- Helper for C4: the same stage discipline for `handleSign`. -/
theorem signswap_run_ordered (o : SignSwapOracle) :
    (∃ k, (runSignSwap o).stages = canonicalStages.take k) ∧
    (Stage.confirmed ∈ (runSignSwap o).stages → (runSignSwap o).stages = canonicalStages) ∧
    (Stage.built ∈ (runSignSwap o).stages → (runSignSwap o).paramsCalls = 1) := by
  rcases o with ⟨tdl, cok, snd, aa, pr, wi, er, str, subr, cr⟩
  cases tdl with
  | false => refine ⟨⟨0, ?_⟩, ?_, ?_⟩ <;> simp [runSignSwap, canonicalStages]
  | true =>
    cases cok with
    | false => refine ⟨⟨0, ?_⟩, ?_, ?_⟩ <;> simp [runSignSwap, canonicalStages]
    | true =>
      cases snd with
      | none =>
        refine ⟨⟨0, ?_⟩, ?_, ?_⟩ <;> simp [runSignSwap, signSwapStop, canonicalStages]
      | some sndr =>
        cases pr with
        | error m =>
          refine ⟨⟨0, ?_⟩, ?_, ?_⟩ <;> simp [runSignSwap, signSwapStop, canonicalStages]
        | ok u =>
          cases wi with
          | false =>
            refine ⟨⟨1, ?_⟩, ?_, ?_⟩ <;> simp [runSignSwap, signSwapStop, canonicalStages]
          | true =>
            cases er with
            | error m =>
              refine ⟨⟨1, ?_⟩, ?_, ?_⟩ <;> simp [runSignSwap, signSwapStop, canonicalStages]
            | ok u2 =>
              cases str with
              | error m =>
                refine ⟨⟨2, ?_⟩, ?_, ?_⟩ <;>
                  simp [runSignSwap, signSwapStop, canonicalStages]
              | ok l =>
                by_cases hr : headRejected l = true
                · refine ⟨⟨2, ?_⟩, ?_, ?_⟩ <;>
                    simp [runSignSwap, signSwapStop, canonicalStages, hr]
                · cases subr with
                  | error e =>
                    refine ⟨⟨3, ?_⟩, ?_, ?_⟩ <;>
                      simp [runSignSwap, signSwapStop, canonicalStages, hr]
                  | ok tid =>
                    cases cr with
                    | error m =>
                      refine ⟨⟨4, ?_⟩, ?_, ?_⟩ <;>
                        simp [runSignSwap, signSwapStop, canonicalStages, hr]
                    | ok v =>
                      refine ⟨⟨5, ?_⟩, ?_, ?_⟩ <;>
                        simp [runSignSwap, signSwapStop, canonicalStages, hr]

/-- C4: within one signing attempt, in both the `handleSendAlgo` flow and
the `handleSign` flow, the stages entered are always an in-order prefix of
Built → AwaitingSignature → Broadcasting → AwaitingConfirmation →
Confirmed (no stage skipped or reordered), `Confirmed` is reached only
through the full sequence, and every attempt that builds does so with a
fresh parameter fetch of its own — each run is a function of its own
attempt's inputs only, so a new build starts a fresh session. -/
theorem C4_stage_order (oT : TransactOracle) (oS : SignSwapOracle) :
    ((∃ k, (runTransact oT).stages = canonicalStages.take k) ∧
      (Stage.confirmed ∈ (runTransact oT).stages →
        (runTransact oT).stages = canonicalStages) ∧
      (Stage.built ∈ (runTransact oT).stages → (runTransact oT).paramsCalls = 1)) ∧
    ((∃ k, (runSignSwap oS).stages = canonicalStages.take k) ∧
      (Stage.confirmed ∈ (runSignSwap oS).stages →
        (runSignSwap oS).stages = canonicalStages) ∧
      (Stage.built ∈ (runSignSwap oS).stages → (runSignSwap oS).paramsCalls = 1)) :=
  ⟨transact_run_ordered oT, signswap_run_ordered oS⟩

/-- Witness for C4 at fully successful concrete runs of both flows. -/
theorem C4_stage_order_witness :
    Stage.confirmed ∈ (runTransact okTransactOracle).stages ∧
    (runTransact okTransactOracle).stages = canonicalStages ∧
    Stage.built ∈ (runSignSwap okSignSwapOracle).stages ∧
    (runSignSwap okSignSwapOracle).paramsCalls = 1 := by
  have h1 : Stage.confirmed ∈ (runTransact okTransactOracle).stages := by
    norm_num [runTransact, okTransactOracle, canonicalStages]
  have h2 : Stage.built ∈ (runSignSwap okSignSwapOracle).stages := by
    norm_num [runSignSwap, okSignSwapOracle, canonicalStages, headRejected]
  exact ⟨h1, (C4_stage_order okTransactOracle okSignSwapOracle).1.2.1 h1, h2,
    (C4_stage_order okTransactOracle okSignSwapOracle).2.2.2 h2⟩

/-- C5: an explicit rejection by the signing authority is terminal and
never reaches raw submission, in either flow: a null or absent entry in
the `signTxns` result (`handleSign`), a thrown rejection from `signTxns`,
or a thrown rejection from `signTransactions` (`handleSendAlgo`) all give
zero `sendRawTransaction` calls, zero confirmation polls, and at most one
signature request (no automatic retry). -/
theorem C5_rejection_never_submits :
    (∀ (o : SignSwapOracle) (l : List (Option (List Nat))),
        o.signTxnsResult = Except.ok l → headRejected l = true →
        (runSignSwap o).submitCalls = 0 ∧ (runSignSwap o).confirmCalls = 0 ∧
        (runSignSwap o).signCalls ≤ 1) ∧
    (∀ (o : SignSwapOracle) (m : String),
        o.signTxnsResult = Except.error m →
        (runSignSwap o).submitCalls = 0 ∧ (runSignSwap o).confirmCalls = 0 ∧
        (runSignSwap o).signCalls ≤ 1) ∧
    (∀ (o : TransactOracle) (m : String),
        o.signResult = Except.error m →
        (runTransact o).submitCalls = 0 ∧ (runTransact o).confirmCalls = 0 ∧
        (runTransact o).signCalls ≤ 1) := by
  refine ⟨?_, ?_, ?_⟩
  · rintro ⟨tdl, cok, snd, aa, pr, wi, er, str, subr, cr⟩ l h hrej
    dsimp only at h
    subst h
    cases tdl <;> cases cok <;> rcases snd with _ | sndr <;> rcases pr with m | u <;>
      cases wi <;> rcases er with m2 | u2 <;>
      simp [runSignSwap, signSwapStop, hrej]
  · rintro ⟨tdl, cok, snd, aa, pr, wi, er, str, subr, cr⟩ m h
    dsimp only at h
    subst h
    cases tdl <;> cases cok <;> rcases snd with _ | sndr <;> rcases pr with m1 | u <;>
      cases wi <;> rcases er with m2 | u2 <;>
      simp [runSignSwap, signSwapStop]
  · rintro ⟨amt, pr, sr, subr, cr⟩ m h
    dsimp only at h
    subst h
    cases amt with
    | none => simp [runTransact, invalidAmountRun]
    | some a =>
      by_cases ha : a ≤ 0 <;> rcases pr with m1 | u <;>
        simp [runTransact, invalidAmountRun, ha]

/-- Witness for C5 at a wallet returning `[null]`. -/
theorem C5_rejection_never_submits_witness :
    rejectedSignSwapOracle.signTxnsResult = Except.ok [(none : Option (List Nat))] ∧
    headRejected [(none : Option (List Nat))] = true ∧
    (runSignSwap rejectedSignSwapOracle).submitCalls = 0 :=
  ⟨rfl, by decide,
    (C5_rejection_never_submits.1 rejectedSignSwapOracle [none] rfl (by decide)).1⟩

/-- C6 counterexample: when `sendRawTransaction` fails with a
parameter-staleness cause, the flow performs no rebuild-and-resubmit at
all — raw submission happens exactly once (not twice), parameters are
fetched exactly once (not rebuilt), and the failure is surfaced to the
user immediately. -/
theorem C6_staleness_retry_counterexample :
    staleTransactOracle.submitResult
      = Except.error { cause := .staleParams
                       message := "TransactionPool.Remember: txn dead" } ∧
    (runTransact staleTransactOracle).submitCalls = 1 ∧
    (runTransact staleTransactOracle).paramsCalls = 1 ∧
    (runTransact staleTransactOracle).txStatus
      = some "❌ Failed: TransactionPool.Remember: txn dead" ∧
    (runTransact staleTransactOracle).submitCalls ≠ 2 := by
  have hs : "❌ Failed: " ++ "TransactionPool.Remember: txn dead"
      = "❌ Failed: TransactionPool.Remember: txn dead" := by simp
  refine ⟨rfl, ?_, ?_, ?_, ?_⟩ <;> norm_num [runTransact, staleTransactOracle, hs]

/-- C6 amended: in both flows — `handleSendAlgo` and
`SignSwapMode.handleSign` — every `sendRawTransaction` failure, staleness
included, is terminal for the attempt: submission is attempted at most
once, no rebuild-and-resubmit occurs, no confirmation poll follows, and
when the submission was reached its thrown message is surfaced verbatim
in the failure status of that flow. -/
theorem C6_submit_failure_terminal :
    (∀ (o : TransactOracle) (e : SubmitErr),
        o.submitResult = Except.error e →
        (runTransact o).submitCalls ≤ 1 ∧
        (runTransact o).confirmCalls = 0 ∧
        ((runTransact o).submitCalls = 1 →
          (runTransact o).txStatus = some ("❌ Failed: " ++ e.message))) ∧
    (∀ (o : SignSwapOracle) (e : SubmitErr),
        o.submitResult = Except.error e →
        (runSignSwap o).submitCalls ≤ 1 ∧
        (runSignSwap o).confirmCalls = 0 ∧
        ((runSignSwap o).submitCalls = 1 →
          (runSignSwap o).errorMsg = some ("Transaction failed: " ++ e.message) ∧
          (runSignSwap o).status = SwapStatus.error)) := by
  constructor
  · rintro ⟨amt, pr, sr, subr, cr⟩ e h
    dsimp only at h
    subst h
    cases amt with
    | none => simp [runTransact, invalidAmountRun]
    | some a =>
      by_cases ha : a ≤ 0
      · simp [runTransact, invalidAmountRun, ha]
      · rcases pr with m1 | u <;> rcases sr with m2 | l <;>
          simp [runTransact, ha]
  · rintro ⟨tdl, cok, snd, aa, pr, wi, er, str, subr, cr⟩ e h
    dsimp only at h
    subst h
    cases tdl with
    | false => simp [runSignSwap]
    | true =>
      cases cok with
      | false => simp [runSignSwap]
      | true =>
        cases snd with
        | none => simp [runSignSwap, signSwapStop]
        | some sndr =>
          cases pr with
          | error m1 => simp [runSignSwap, signSwapStop]
          | ok u =>
            cases wi with
            | false => simp [runSignSwap, signSwapStop]
            | true =>
              cases er with
              | error m2 => simp [runSignSwap, signSwapStop]
              | ok u2 =>
                cases str with
                | error m3 => simp [runSignSwap, signSwapStop]
                | ok l =>
                  by_cases hr : headRejected l = true
                  · simp [runSignSwap, signSwapStop, hr]
                  · simp [runSignSwap, signSwapStop, hr]

/-- Witness for C6 amended at the concrete staleness rejection in each
flow. -/
theorem C6_submit_failure_terminal_witness :
    staleTransactOracle.submitResult
      = Except.error { cause := SubmitCause.staleParams
                       message := "TransactionPool.Remember: txn dead" } ∧
    (runTransact staleTransactOracle).submitCalls ≤ 1 ∧
    staleSignSwapOracle.submitResult
      = Except.error { cause := SubmitCause.staleParams
                       message := "TransactionPool.Remember: txn dead" } ∧
    (runSignSwap staleSignSwapOracle).submitCalls ≤ 1 :=
  ⟨rfl, (C6_submit_failure_terminal.1 staleTransactOracle _ rfl).1,
    rfl, (C6_submit_failure_terminal.2 staleSignSwapOracle _ rfl).1⟩

/-- C7: every enabled failure event of the connection negotiation —
wallet-library load failure, `WalletManager` construction throw,
`wallet.connect()` rejection, or a render error caught by the error
boundary — leaves the session in a state from which the manual-paste
strategy is available, and never in a terminated one (the machine has no
failure-terminal state; the only terminal state is `connected`). -/
theorem C7_handshake_failure_falls_back (s : NegState) (e : NegEvent)
    (hf : isFailureEvent e = true) (hen : eventEnabled s e = true) :
    manualEntryAvailable (negotiatorStep s e) = true ∧
    (∀ a : String, negotiatorStep s e ≠ NegState.connected a) := by
  cases s <;> cases e <;>
    simp_all [negotiatorStep, eventEnabled, isFailureEvent, manualEntryAvailable]

/-- Witness for C7: the wallet-library import rejection from the initial
state lands in the manual fallback. -/
theorem C7_handshake_failure_falls_back_witness :
    isFailureEvent NegEvent.libLoadFailed = true ∧
    eventEnabled NegState.loadingLib NegEvent.libLoadFailed = true ∧
    manualEntryAvailable (negotiatorStep NegState.loadingLib NegEvent.libLoadFailed)
      = true :=
  ⟨by decide, by decide,
    (C7_handshake_failure_falls_back NegState.loadingLib NegEvent.libLoadFailed
      (by decide) (by decide)).1⟩

/-- C9 counterexample: a requested payment of 0.0000001 ALGO (one tenth of
a microAlgo) is silently floored to an amount of 0 microAlgos in the built
payment — the placed amount does not equal the requested amount. -/
theorem C9_amount_truncation_counterexample :
    tinyAmountOracle.amountInput = some ((1 : ℚ) / 10000000) ∧
    (runTransact tinyAmountOracle).amountMicro = some 0 ∧
    ((0 : ℤ) : ℚ) ≠ ((1 : ℚ) / 10000000) * 1000000 := by
  refine ⟨rfl, ?_, by norm_num⟩
  have hf : buildAmountMicro ((1 : ℚ) / 10000000) = 0 := by
    unfold buildAmountMicro
    norm_num [Int.floor_eq_zero_iff, Set.mem_Ico]
  norm_num [runTransact, tinyAmountOracle, hf]

/-- C9 amended: the amount placed in the built payment is
`⌊amountAlgo * 10^6⌋`: amounts that are whole multiples of one microAlgo
are preserved exactly, anything finer is silently floored (never rounded
up). -/
theorem C9_amount_floor (o : TransactOracle) (amt : ℚ)
    (hamt : o.amountInput = some amt) (hpos : 0 < amt)
    (hp : o.paramsResult = Except.ok ()) :
    (runTransact o).amountMicro = some (buildAmountMicro amt) ∧
    (∀ n : ℤ, amt * 1000000 = (n : ℚ) →
      ((buildAmountMicro amt : ℤ) : ℚ) = amt * 1000000) ∧
    ((buildAmountMicro amt : ℤ) : ℚ) ≤ amt * 1000000 := by
  have ha : ¬ amt ≤ 0 := not_le.mpr hpos
  refine ⟨?_, ?_, ?_⟩
  · rcases o with ⟨ai, pr, sr, subr, cr⟩
    dsimp only at hamt hp
    subst hamt
    subst hp
    rcases sr with m | l
    · simp [runTransact, ha]
    · rcases subr with e | tid
      · simp [runTransact, ha]
      · rcases cr with m | v <;> simp [runTransact, ha]
  · intro n hn
    unfold buildAmountMicro
    rw [hn, Int.floor_intCast]
  · exact Int.floor_le _

/-- Witness for C9 amended at the 0.5 ALGO attempt, where the floored
amount is exactly 500,000 microAlgos. -/
theorem C9_amount_floor_witness :
    okTransactOracle.amountInput = some ((1 : ℚ) / 2) ∧
    (0 : ℚ) < 1 / 2 ∧
    okTransactOracle.paramsResult = Except.ok () ∧
    (runTransact okTransactOracle).amountMicro = some (buildAmountMicro ((1 : ℚ) / 2)) :=
  ⟨rfl, by norm_num, rfl,
    (C9_amount_floor okTransactOracle ((1 : ℚ) / 2) rfl (by norm_num) rfl).1⟩

end X10V
